import Mathlib

/-!
Shallow embedding of `src/metar.py` (single-file METAR fetcher/renderer).

Conventions of the embedding:
* Python ints are `Int`, Python floats carried by the feed are `ℚ`
  (every concrete feed value is a short decimal, exactly representable);
  the one transcendental computation (relative humidity via `math.exp`)
  is modelled over `ℝ` with `Real.exp`.
* `datetime` values are modelled as whole seconds (UTC); `strptime` of the
  feed timestamp is modelled as already done (the claims under study do not
  concern string-to-date parsing).
* Code that can raise a Python exception is modelled with `Except String`,
  the message recording the exception that the source would raise.
* Python dicts keeping insertion order are association lists
  `List (String × _)`; updating an existing key keeps its position.
-/

namespace MetarPy

/-! ## Small Python-formatting helpers -/

/-- Python `int()` applied to a float/rational: truncation toward zero. -/
def pyInt (q : ℚ) : Int := if q < 0 then ⌈q⌉ else ⌊q⌋

/-- Python `round()` on a rational: round half to even (banker's rounding). -/
def pyRound (q : ℚ) : Int :=
  let f := ⌊q⌋
  let r := q - (f : ℚ)
  if r < 1/2 then f
  else if 1/2 < r then f + 1
  else if f % 2 = 0 then f else f + 1

def spaces (n : Nat) : String := String.mk (List.replicate n ' ')

/-- Python `f-string` left justification `{s:<w>}` for strings. -/
def padRight (w : Nat) (s : String) : String :=
  if s.length < w then s ++ spaces (w - s.length) else s

/-- Python `f-string` right alignment `{n:<w>}` for numbers. -/
def padLeft (w : Nat) (s : String) : String :=
  if s.length < w then spaces (w - s.length) ++ s else s

def zfill (w : Nat) (s : String) : String :=
  if s.length < w then String.mk (List.replicate (w - s.length) '0') ++ s else s

/-- Python zero-padded integer format `{n:0w}` (sign before the zeros). -/
def padZeroInt (w : Nat) (n : Int) : String :=
  if n < 0 then "-" ++ zfill (w - 1) (toString (-n)) else zfill w (toString n)

/-- Fractional digits of a rational, most significant first (`fuel` bounds
the length; every feed float terminates well within it). -/
def fracDigits (r : ℚ) (fuel : Nat) : String :=
  match fuel with
  | 0 => ""
  | Nat.succ fuel =>
    let r10 := r * 10
    let d := r10.floor
    toString d ++ (if r10 - (d : ℚ) = 0 then "" else fracDigits (r10 - (d : ℚ)) fuel)

/-- Python `str()` of a float holding a short decimal value (always shows at
least one fractional digit, e.g. `6.0`, `0.125`). -/
def pyFloatStr (q : ℚ) : String :=
  let sgn := if q < 0 then "-" else ""
  let a := |q|
  let ip := a.floor
  let fr := a - (ip : ℚ)
  sgn ++ toString ip ++ "." ++ (if fr = 0 then "0" else fracDigits fr 17)

/-! ## Constants of the source -/

def RESET : String := "\x1b[0m"

/-- Lookup in the `CAT_COLOR` dict. -/
def CAT_COLOR (cat : String) : Option String :=
  if cat = "LIFR" then some "\x1b[1;95m"
  else if cat = "IFR" then some "\x1b[1;91m"
  else if cat = "MVFR" then some "\x1b[1;34m"
  else if cat = "VFR" then some "\x1b[1;32m"
  else none

/-- Access `CAT_COLOR[c]` at one of the four keys that are always present. -/
def catColorD (cat : String) : String := (CAT_COLOR cat).getD ""

def TIMESTAMP_AGE_STALE : Int := 20
def TIMESTAMP_AGE_OLD : Int := 60
def AGE_COLOR_STALE : String := "\x1b[1;37m"
def AGE_COLOR_OLD : String := "\x1b[1;30m"

/-! ## Wind -/

structure Wind where
  dir : Int
  speed : Int
  /-- the gust argument is stored as given (the source never converts it);
  `some` models a present (non-empty, hence truthy) feed value. -/
  gust : Option Int
deriving DecidableEq

/-- Source `Wind.__init__`: `int()` conversions only, no validation of any kind. -/
def Wind.init (direction speed : Int) (gust : Option Int) : Wind :=
  ⟨direction, speed, gust⟩

/-- Source `Wind.format_dir`: zero direction is rendered `VRB`. -/
def Wind.format_dir (w : Wind) : String :=
  if w.dir ≠ 0 then padZeroInt 3 w.dir else "VRB"

/-- Source `Wind.__repr__` (what `str(self.wind)` prints). -/
def Wind.repr (w : Wind) : String :=
  match w.gust with
  | none => if w.speed = 0 then "CALM" else w.format_dir ++ "@" ++ padZeroInt 2 w.speed
  | some g => w.format_dir ++ "@" ++ padZeroInt 2 w.speed ++ "G" ++ toString g

/-! ## CloudLayer -/

def NO_LAYER : List String := ["CLR", "SKC", "CAVOK", "OVX"]
def CLEAR : List String := ["CLR", "SKC", "CAVOK"]

structure CloudLayer where
  /-- Coverage code; `none` only for the internal sentinel used by `Sky.ceiling`. -/
  cover : Option String
  alt : Option Int
deriving DecidableEq

/-- Source `CloudLayer.__init__` from a sky-condition entry (coverage code and the
base-altitude field that accompanies every non-clear entry). -/
def CloudLayer.init (sky_cover : String) (cloud_base_ft_agl : Int) : CloudLayer :=
  ⟨some sky_cover, if sky_cover ∈ CLEAR then none else some cloud_base_ft_agl⟩

def CloudLayer.is_overcast (l : CloudLayer) : Bool := l.cover == some "OVC"
def CloudLayer.is_broken (l : CloudLayer) : Bool := l.cover == some "BKN"
def CloudLayer.is_obscured (l : CloudLayer) : Bool := l.cover == some "OVX"

def CloudLayer.is_ceiling (l : CloudLayer) : Bool :=
  l.is_overcast || l.is_broken || l.is_obscured

/-- The integer value of a layer's altitude where the source is guaranteed
one (ceiling scans only read `alt` of ceiling layers and of the sentinel). -/
def CloudLayer.altVal (l : CloudLayer) : Int := l.alt.getD 0

/-- Python `cover in CLEAR` on an optional cover (`None in CLEAR` is false). -/
def inClear (c : Option String) : Bool :=
  match c with
  | some s => s ∈ CLEAR
  | none => false

def inNoLayer (c : Option String) : Bool :=
  match c with
  | some s => s ∈ NO_LAYER
  | none => false

def coverRepr : Option String → String
  | some s => s
  | none => "None"

/-- Source `CloudLayer.__repr__`. -/
def CloudLayer.repr (l : CloudLayer) : String :=
  if inNoLayer l.cover then coverRepr l.cover
  else coverRepr l.cover ++ "@" ++ (match l.alt with | some n => toString n | none => "None")

/-! ## Sky -/

/-- Loop body of `Sky.lowest`: the comparison `layer.alt < lowest.alt`
raises `TypeError` when either side is `None`. -/
def lowestStep (lw layer : CloudLayer) : Except String CloudLayer :=
  match layer.alt, lw.alt with
  | some a, some b => Except.ok (if a < b then layer else lw)
  | _, _ => Except.error "TypeError: < not supported between instances of NoneType and int"

/-- Source `Sky.lowest`. The source indexes `layers[0]`; a `Sky` is never empty
(its constructor always appends at least one layer), so the `[]` branch is
unreachable and modelled as `ok none`. -/
def Sky.lowest (layers : List CloudLayer) : Except String (Option CloudLayer) :=
  match layers with
  | [] => Except.ok none
  | first :: _ =>
    if inClear first.cover then Except.ok none
    else (layers.foldlM (fun lw layer => lowestStep lw layer) first).map (fun lw => some lw)

/-- Loop body of `Sky.ceiling`. -/
def ceilingStep (c layer : CloudLayer) : CloudLayer :=
  if layer.is_ceiling && layer.altVal < c.altVal then layer else c

/-- Source `Sky.ceiling`: scans from the sentinel (cover `None`, alt 999999). -/
def Sky.ceiling (layers : List CloudLayer) : Option CloudLayer :=
  match layers with
  | [] => none
  | first :: _ =>
    if inClear first.cover then none
    else
      let c := layers.foldl (fun c layer => ceilingStep c layer) ⟨none, some 999999⟩
      if c.cover = none then none else some c

/-- Source `Sky.ceiling_or_lowest` (string-valued, as the source immediately
stringifies; `lowest()` can raise, so the result is fallible). -/
def Sky.ceiling_or_lowest (layers : List CloudLayer) : Except String String :=
  match Sky.ceiling layers with
  | some c => Except.ok (CloudLayer.repr c)
  | none => do
    let lw ← Sky.lowest layers
    match lw with
    | some l => Except.ok (CloudLayer.repr l)
    | none => Except.ok "CLR"

/-! ## Metar: a parsed observation record -/

/-- The flat field map of one feed result (`xmltodict` output for one
`METAR` element). Optional keys are `Option`; `wind_dir_degrees` is read by
the source only when `wind_speed_kt` is present, so it is carried plain. -/
structure RawMetar where
  station_id : String
  observation_time : Int
  raw_text : String
  temp_c : Option ℚ
  dewpoint_c : Option ℚ
  wind_dir_degrees : Int
  wind_speed_kt : Option Int
  wind_gust_kt : Option Int
  visibility_statute_mi : Option ℚ
  altim_in_hg : Option ℚ
  flight_category : String
  /-- singleton dict or list in the XML; both shapes become one list here. -/
  sky_condition : Option (List (String × Int))
  wx_string : Option String

structure Metar where
  station : String
  obs_time : Int
  timestamp : String
  raw : String
  temp : Option Int
  dewpt : Option Int
  /-- Relative humidity; `none` models the `rh` attribute never being assigned. -/
  rh : Option Int
  wind : Option Wind
  vis : Option ℚ
  alt : Option ℚ
  cat : String
  sky : Option (List CloudLayer)
  wx_string : String

/-- Python truncation `int(x)` of the (always positive) humidity value. -/
noncomputable def pyIntR (x : ℝ) : Int := if x < 0 then ⌈x⌉ else ⌊x⌋

/-- The relative-humidity expression of `Metar.__init__`:
`int(100*(exp((17.625*dewpt)/(243.04+dewpt))/exp((17.625*temp)/(243.04+temp))))`. -/
noncomputable def magnusRh (temp dewpt : Int) : Int :=
  pyIntR (100 * (Real.exp ((17.625 * (dewpt : ℝ)) / (243.04 + (dewpt : ℝ))) /
    Real.exp ((17.625 * (temp : ℝ)) / (243.04 + (temp : ℝ)))))

/-- Source `Metar.__init__`. `update_age` stores no lasting state that rendering
uses (it is recomputed by `text_out`), so the age is modelled as the derived
function `update_age` below rather than a field. -/
noncomputable def Metar.init (metar : RawMetar) : Metar :=
  let temp := metar.temp_c.map pyRound
  let dewpt := metar.dewpoint_c.map pyRound
  ⟨metar.station_id,
   metar.observation_time,
   (metar.raw_text.drop 5).take 7,
   metar.raw_text,
   temp,
   dewpt,
   (match temp, dewpt with
    | some t, some d => some (magnusRh t d)
    | _, _ => none),
   (match metar.wind_speed_kt with
    | some s => some (Wind.init metar.wind_dir_degrees s metar.wind_gust_kt)
    | none => none),
   metar.visibility_statute_mi,
   metar.altim_in_hg.map (fun a => ((pyInt (a * 100) : ℚ) / 100)),
   metar.flight_category,
   metar.sky_condition.map (fun sc => sc.map (fun p => CloudLayer.init p.1 p.2)),
   metar.wx_string.getD ""⟩

/-- Source `Metar.update_age`: `(datetime.utcnow() - self.obs_time).seconds // 60`.
`timedelta.seconds` is the normalized seconds component, i.e. the total
difference modulo 86400 (whole days are *not* included). -/
def update_age (obs_time now : Int) : Int := ((now - obs_time) % 86400) / 60

/-- Source `Metar.temp_and_dewpt`, one side. -/
def fmtTd : Option Int → String
  | none => "xx"
  | some t => (if t < 0 then "M" else "") ++ padZeroInt 2 |t|

def temp_and_dewpt (temp dewpt : Option Int) : String :=
  fmtTd temp ++ "/" ++ fmtTd dewpt

/-- Source `Metar.format_cat`: a dict lookup that raises `KeyError` off the table. -/
def format_cat (cat : String) : Except String String :=
  match CAT_COLOR cat with
  | some col => Except.ok (col ++ padRight 4 cat ++ RESET)
  | none => Except.error "KeyError"

/-- Source `Metar.format_timestamp` given the freshly recomputed age. -/
def format_timestamp (timestamp : String) (obs_age : Int) : String :=
  if obs_age > TIMESTAMP_AGE_OLD then AGE_COLOR_OLD ++ timestamp.dropRight 1 ++ RESET
  else if obs_age > TIMESTAMP_AGE_STALE then AGE_COLOR_STALE ++ timestamp.dropRight 1 ++ RESET
  else timestamp.dropRight 1

/-- Source `Metar.format_vis` returns a `str` on the classified branches but the
raw float itself on the final fallthrough — kept as distinct shapes. -/
inductive VisOut
  | str (s : String)
  | flt (v : ℚ)
deriving DecidableEq

/-- Source `Metar.format_vis`; comparing an absent visibility raises `TypeError`. -/
def format_vis : Option ℚ → Except String VisOut
  | none => Except.error "TypeError: not supported between instances of NoneType and int"
  | some vis =>
    if vis ≥ 5 then Except.ok (.str (catColorD "VFR" ++ " " ++ padZeroInt 2 (pyInt vis) ++ RESET))
    else if vis ≥ 3 then Except.ok (.str (catColorD "MVFR" ++ " " ++ padZeroInt 2 (pyInt vis) ++ RESET))
    else if vis ≥ 1 then Except.ok (.str (catColorD "IFR" ++ " " ++ padZeroInt 2 (pyInt vis) ++ RESET))
    else if vis = 1/4 then Except.ok (.str (catColorD "LIFR" ++ "1/4" ++ RESET))
    else if vis = 1/2 then Except.ok (.str (catColorD "LIFR" ++ "1/2" ++ RESET))
    else if vis = 3/4 then Except.ok (.str (catColorD "LIFR" ++ "3/4" ++ RESET))
    else Except.ok (.flt vis)

/-- what the f-string interpolation makes of a `format_vis` result. -/
def VisOut.asStr : VisOut → String
  | .str s => s
  | .flt v => pyFloatStr v

/-- Source `Metar.format_ceiling`; an absent sky raises `AttributeError`. -/
def format_ceiling (sky : Option (List CloudLayer)) : Except String String :=
  match sky with
  | none => Except.error "AttributeError: NoneType object has no attribute ceiling"
  | some layers =>
    match Sky.ceiling layers with
    | some ceiling =>
      if ceiling.altVal > 3000 then
        Except.ok (catColorD "VFR" ++ " " ++ padRight 9 (CloudLayer.repr ceiling) ++ RESET)
      else if ceiling.altVal > 1000 then
        Except.ok (catColorD "MVFR" ++ " " ++ padRight 9 (CloudLayer.repr ceiling) ++ RESET)
      else if ceiling.altVal ≥ 500 then
        Except.ok (catColorD "IFR" ++ " " ++ padRight 9 (CloudLayer.repr ceiling) ++ RESET)
      else
        Except.ok (catColorD "LIFR" ++ " " ++ padRight 9 (CloudLayer.repr ceiling) ++ RESET)
    | none => do
      let s ← Sky.ceiling_or_lowest layers
      Except.ok (catColorD "VFR" ++ " " ++ padRight 9 s ++ RESET)

/-- Format `alt` with two decimals on the already-truncated altimeter value. -/
def fmtFix2 (q : ℚ) : String :=
  let c := pyInt (q * 100)
  toString (c / 100) ++ "." ++ zfill 2 (toString (c % 100))

/-- Source `Metar.text_out` as a function of the record and the current time; the
f-string evaluates its pieces left to right and the first absent
non-defaulted field raises. -/
noncomputable def Metar.text_out (m : Metar) (now : Int) : Except String String := do
  let obs_age := update_age m.obs_time now
  let ts := format_timestamp m.timestamp obs_age
  let cat ← format_cat m.cat
  let windStr := padRight 9 (match m.wind with | some w => Wind.repr w | none => "None")
  let altStr ← (match m.alt with
    | some a => Except.ok (fmtFix2 a)
    | none => Except.error "TypeError: unsupported format string passed to NoneType.__format__")
  let td := padRight 7 (temp_and_dewpt m.temp m.dewpt)
  let rhStr ← (match m.rh with
    | some r => Except.ok (padLeft 3 (toString r))
    | none => Except.error "AttributeError: Metar object has no attribute rh")
  let visStr ← format_vis m.vis
  let ceilStr ← format_ceiling m.sky
  Except.ok (m.station ++ " " ++ ts ++ "  " ++ cat ++ "  " ++ windStr ++ "  " ++ altStr ++ "  " ++
    td ++ "  " ++ rhStr ++ "%  " ++ visStr.asStr ++ "  " ++ ceilStr ++ "  " ++ m.wx_string)

/-! ## Metars: the observation set -/

structure MetarsState where
  airports : List String
  metars_dict : List (String × Metar)

/-- Python dict assignment `d[k] = v`: replace in place or append. -/
def dictInsert (d : List (String × Metar)) (k : String) (v : Metar) : List (String × Metar) :=
  match d with
  | [] => [(k, v)]
  | (k0, v0) :: rest => if k0 = k then (k0, v) :: rest else (k0, v0) :: dictInsert rest k v

/-- The feed answer as `Metars.update` consumes it: a non-OK transport
response, or an OK payload whose result count is the length of the list
(one result arrives as a singleton, several as a list — same contents). -/
inductive FeedResponse
  | bad
  | ok (results : List RawMetar)

/-- Source `Metars.update`, with the network call abstracted into the response. -/
noncomputable def Metars.update (s : MetarsState) (resp : FeedResponse) : Bool × MetarsState :=
  match resp with
  | .bad => (false, s)
  | .ok results =>
    if results.length = 0 then (false, s)
    else
      let successful_updates := results.map (fun r => r.station_id)
      let metars_dict :=
        results.foldl (fun d r => dictInsert d r.station_id (Metar.init r)) s.metars_dict
      (true, ⟨successful_updates, metars_dict⟩)

/-- A Python value as far as `Metars.__init__`'s `isinstance` checks see it. -/
inductive PyVal
  | str (s : String)
  | nonStr
deriving DecidableEq

/-- The `airports` argument: a list, or a single (string or other) value. -/
inductive PyInput
  | ofList (vs : List PyVal)
  | single (v : PyVal)

/-- The station-list normalization of `Metars.__init__` (the subsequent
`self.update()` network call is modelled separately by `Metars.update`). -/
def Metars.initAirports (airports : PyInput) : Except String (List String) :=
  let as0 : List String :=
    match airports with
    | .single v => (match v with | .str s => [s] | .nonStr => [])
    | .ofList vs => vs.foldl (fun acc v => match v with | .str s => acc ++ [s] | .nonStr => acc) []
  if as0.length = 0 then Except.error "airports must be a string or a list of strings"
  else Except.ok as0

/-! ## Spec-side definitions (written from the spec's words, for comparison
with the source-derived functions above) -/

def minStep (b x : CloudLayer) : CloudLayer := if x.altVal < b.altVal then x else b

/-- Minimum-altitude layer of a list, first-encountered winning ties. -/
def minByAltFirst : List CloudLayer → Option CloudLayer
  | [] => none
  | l :: ls => some (ls.foldl (fun b x => minStep b x) l)

/-- The spec's `ceiling()`: minimum-altitude layer among those with
`is_ceiling`, none if no ceiling layer, short-circuit to none when the
first layer is clear-equivalent, first-encountered wins ties. -/
def specCeiling (layers : List CloudLayer) : Option CloudLayer :=
  match layers with
  | [] => none
  | first :: _ =>
    if inClear first.cover then none
    else minByAltFirst (layers.filter (fun l => l.is_ceiling))

/-- The spec's `lowest()`: minimum-altitude layer among the non-clear
layers, same short-circuit rule. -/
def specLowest (layers : List CloudLayer) : Option CloudLayer :=
  match layers with
  | [] => none
  | first :: _ =>
    if inClear first.cover then none
    else minByAltFirst (layers.filter (fun l => !(inClear l.cover)))

/-- The string elements of the `airports` argument, in order. -/
def pyStrings : PyInput → List String
  | .single (.str s) => [s]
  | .single .nonStr => []
  | .ofList vs => vs.filterMap (fun v => match v with | .str s => some s | .nonStr => none)

/-- Order-preserving de-duplication (first occurrence kept). -/
def dedupFirst (l : List String) : List String :=
  l.foldl (fun acc s => if s ∈ acc then acc else acc ++ [s]) []

/-- The claim's normalization: de-duplicated ordered list of non-empty
strings, non-string entries dropped. -/
def specNormalize (vs : List PyVal) : List String :=
  dedupFirst (((vs.filterMap (fun v => match v with | .str s => some s | .nonStr => none)).filter
    (fun s => !(s == ""))))

/-! ## Concrete sample data used by counterexamples and witnesses -/

/-- A previously resolved record for station `BBBB` (field values immaterial). -/
def mB : Metar :=
  ⟨"BBBB", 0, "011200", "BBBB 011200Z", none, none, none, none, none, none, "VFR", none, ""⟩

/-- A feed result for station `AAAA` alone. -/
def rawA : RawMetar :=
  ⟨"AAAA", 0, "AAAA 011200Z 00000KT", none, none, 0, none, none, none, none, "VFR", none, none⟩

/-- A feed result with temperature 20 °C and dewpoint 10 °C. -/
def rawTD : RawMetar :=
  ⟨"DDDD", 0, "DDDD 011200Z 00000KT", some 20, some 10, 0, none, none, some 10, some (2992/100),
   "VFR", some [("CLR", 0)], none⟩

/-- A feed result lacking the altimeter field (everything else benign). -/
def rawNoAlt : RawMetar :=
  ⟨"CCCC", 0, "CCCC 011200Z 00000KT", none, none, 0, some 5, none, some 6, none,
   "VFR", some [("CLR", 0)], some "RA"⟩

/-- A feed result lacking the visibility field (temperature and dewpoint
present so the humidity column is reachable). -/
def rawNoVis : RawMetar :=
  ⟨"EEEE", 0, "EEEE 011200Z 00000KT", some 20, some 10, 0, some 5, none, none, some (2992/100),
   "VFR", some [("CLR", 0)], none⟩

/-! ## Claim theorems -/

/-- C2: if `update()` sees a transport failure or a successful response with
zero results, it returns the failure outcome and leaves the whole state —
the resolved mapping and the requested station list — exactly as it was. -/
theorem update_failure_preserves_state (s : MetarsState) :
    Metars.update s .bad = (false, s) ∧ Metars.update s (.ok []) = (false, s) :=
  ⟨rfl, rfl⟩

/-- C5 (failing input): for an observation 25 hours old, `update_age`
reports 60 minutes — `timedelta.seconds` drops the whole-day part — while
the true `floor((now - observed_at) in minutes)` is 1500. -/
theorem update_age_drops_whole_days :
    update_age 0 90000 = 60 ∧ (90000 : Int) / 60 = 1500 ∧ (60 : Int) ≠ 1500 := by
  decide

/-- C9 (counterexample): `Wind` construction succeeds, storing the values
unchanged, even with direction 999 (outside [0, 360]) and speed −5. -/
theorem wind_init_accepts_out_of_range :
    Wind.init 999 (-5) none = ⟨999, -5, none⟩ ∧ (999 : Int) > 360 ∧ (-5 : Int) < 0 := by
  refine ⟨rfl, by decide, by decide⟩

/-- C9 (amended): `Wind` construction performs no validation at all: for
every direction, speed and gust it succeeds and stores them as given. -/
theorem wind_init_unvalidated (direction speed : Int) (gust : Option Int) :
    (Wind.init direction speed gust).dir = direction ∧
    (Wind.init direction speed gust).speed = speed ∧
    (Wind.init direction speed gust).gust = gust :=
  ⟨rfl, rfl, rfl⟩

/-- C3 (counterexample): a single overcast layer at 999999 ft is a ceiling
layer, yet `ceiling()` returns none — the layer never beats the equal-
altitude scan sentinel. -/
theorem ceiling_sentinel_counterexample :
    (CloudLayer.init "OVC" 999999).is_ceiling = true ∧
    Sky.ceiling [CloudLayer.init "OVC" 999999] = none := by
  refine ⟨rfl, rfl⟩

/-- C7 (counterexample): visibility 1/8 mi is below 1 mi, but `format_vis`
returns the bare float with no LIFR classification (the LIFR tier is
applied only at exactly 1/4, 1/2 and 3/4). -/
theorem format_vis_sub_mile_counterexample :
    format_vis (some (1/8)) = Except.ok (.flt (1/8)) ∧ ((1/8 : ℚ) < 1) := by
  refine ⟨by norm_num [format_vis], by norm_num⟩

/-- C8 (counterexample): with a broken layer first and a clear layer second,
`lowest()` raises `TypeError` (comparing the clear layer's `None` altitude)
instead of returning the broken layer, the lowest non-clear layer. -/
theorem lowest_raises_on_clear_layer :
    Sky.lowest [CloudLayer.init "BKN" 1000, CloudLayer.init "CLR" 0]
      = Except.error "TypeError: < not supported between instances of NoneType and int" ∧
    Sky.lowest [CloudLayer.init "BKN" 1000, CloudLayer.init "CLR" 0]
      ≠ Except.ok (some (CloudLayer.init "BKN" 1000)) := by
  refine ⟨rfl, fun h => ?_⟩
  rw [show Sky.lowest [CloudLayer.init "BKN" 1000, CloudLayer.init "CLR" 0]
      = Except.error "TypeError: < not supported between instances of NoneType and int" from rfl] at h
  exact Except.noConfusion h

/-- C10 (counterexample): the input `[""]` normalizes, per the claim, to the
empty list (empty strings dropped), so construction should fail — but the
source accepts it and keeps the empty string. -/
theorem initAirports_keeps_empty_string :
    Metars.initAirports (.ofList [.str ""]) = Except.ok [""] ∧
    specNormalize [.str ""] = [] := by
  refine ⟨rfl, rfl⟩

/-- C1 (counterexample): after a successful `update()` returning only
`AAAA`, the station list narrows to `AAAA` but the resolved mapping still
holds the entry for `BBBB` from an earlier update — the caller observes a
resolved station the feed did not return. -/
theorem update_keeps_stale_resolved_entry :
    (Metars.update ⟨["AAAA", "BBBB"], [("BBBB", mB)]⟩ (.ok [rawA])).1 = true ∧
    (Metars.update ⟨["AAAA", "BBBB"], [("BBBB", mB)]⟩ (.ok [rawA])).2.airports = ["AAAA"] ∧
    (Metars.update ⟨["AAAA", "BBBB"], [("BBBB", mB)]⟩ (.ok [rawA])).2.metars_dict.map Prod.fst
      = ["BBBB", "AAAA"] ∧
    ("BBBB" : String) ≠ "AAAA" := by
  refine ⟨rfl, rfl, rfl, by decide⟩

/-- C6 (code bug): rendering a record whose altimeter is absent raises
`TypeError` (formatting `None` with `.2f`), and rendering one whose
visibility is absent raises `TypeError` (comparing `None` with an int) —
absent optional fields are not rendered as placeholders. -/
theorem text_out_fails_on_absent_fields :
    Metar.text_out (Metar.init rawNoAlt) 600
      = Except.error "TypeError: unsupported format string passed to NoneType.__format__" ∧
    Metar.text_out (Metar.init rawNoVis) 600
      = Except.error "TypeError: not supported between instances of NoneType and int" := by
  refine ⟨rfl, rfl⟩

/-- The element-appending loop of `Metars.__init__` collects exactly the
string elements, in order. -/
theorem airports_foldl_filterMap (vs : List PyVal) (acc : List String) :
    vs.foldl (fun acc v => match v with | .str s => acc ++ [s] | .nonStr => acc) acc
      = acc ++ vs.filterMap (fun v => match v with | .str s => some s | .nonStr => none) := by
  induction vs generalizing acc with
  | nil => simp
  | cons v rest ih =>
    cases v with
    | str s => simp [List.foldl_cons, List.filterMap_cons, ih]
    | nonStr => simp [List.foldl_cons, List.filterMap_cons, ih]

/-- C10 (amended): construction accepts one station identifier or a list of
them and keeps exactly the elements that are strings, in order — duplicates
and empty strings included — failing with `TypeError` if and only if no
string element remains. -/
theorem initAirports_characterization (airports : PyInput) :
    Metars.initAirports airports =
      (if (pyStrings airports).length = 0
       then Except.error "airports must be a string or a list of strings"
       else Except.ok (pyStrings airports)) := by
  cases airports with
  | single v => cases v <;> rfl
  | ofList vs =>
    have e : pyStrings (.ofList vs)
        = vs.foldl (fun acc v => match v with | .str s => acc ++ [s] | .nonStr => acc) [] := by
      rw [airports_foldl_filterMap]
      simp [pyStrings]
    rw [e]
    rfl

/-- Dict assignment adds the key if new and otherwise leaves the key set
unchanged. -/
theorem dictInsert_keys_mem (d : List (String × Metar)) (k x : String) (v : Metar) :
    x ∈ (dictInsert d k v).map Prod.fst ↔ x ∈ d.map Prod.fst ∨ x = k := by
  induction d with
  | nil => simp [dictInsert]
  | cons p rest ih =>
    obtain ⟨k0, v0⟩ := p
    by_cases h : k0 = k
    · subst h
      have hd : dictInsert ((k0, v0) :: rest) k0 v = (k0, v) :: rest := by
        simp [dictInsert]
      rw [hd]
      simp only [List.map_cons, List.mem_cons]
      tauto
    · have hd : dictInsert ((k0, v0) :: rest) k v = (k0, v0) :: dictInsert rest k v := by
        simp only [dictInsert]; rw [if_neg h]
      rw [hd]
      simp only [List.map_cons, List.mem_cons, ih]
      tauto

/-- Folding dict assignments over the results merges the key sets. -/
theorem foldl_dictInsert_keys_mem (rs : List RawMetar) (d : List (String × Metar)) (x : String) :
    x ∈ (rs.foldl (fun d r => dictInsert d r.station_id (Metar.init r)) d).map Prod.fst ↔
      x ∈ d.map Prod.fst ∨ x ∈ rs.map (fun r => r.station_id) := by
  induction rs generalizing d with
  | nil => simp
  | cons r rest ih =>
    simp only [List.foldl_cons, List.map_cons, List.mem_cons]
    rw [ih, dictInsert_keys_mem]
    tauto

/-- C1 (amended): after a successful `update()` with one or more results,
the effective station list is exactly the returned station ids, but the
resolved mapping is merged: it holds a station iff it was already resolved
before the call or was returned by this call — entries from earlier updates
for stations not returned are retained, not dropped. -/
theorem update_success_narrows_list_merges_resolved
    (s : MetarsState) (rs : List RawMetar) (h : rs ≠ []) :
    (Metars.update s (.ok rs)).1 = true ∧
    (Metars.update s (.ok rs)).2.airports = rs.map (fun r => r.station_id) ∧
    ∀ x : String, (x ∈ (Metars.update s (.ok rs)).2.metars_dict.map Prod.fst ↔
      (x ∈ s.metars_dict.map Prod.fst ∨ x ∈ rs.map (fun r => r.station_id))) := by
  have hlen : ¬ rs.length = 0 := by simpa using h
  have hu : Metars.update s (.ok rs) =
      (true, ⟨rs.map (fun r => r.station_id),
        rs.foldl (fun d r => dictInsert d r.station_id (Metar.init r)) s.metars_dict⟩) := by
    simp only [Metars.update, if_neg hlen]
  rw [hu]
  exact ⟨rfl, rfl, fun x => foldl_dictInsert_keys_mem rs s.metars_dict x⟩

/-- Witness for the amended C1 at a concrete call. -/
theorem update_success_witness :
    (Metars.update ⟨["AAAA"], []⟩ (.ok [rawA])).1 = true ∧
    (Metars.update ⟨["AAAA"], []⟩ (.ok [rawA])).2.airports = ["AAAA"] := by
  have h := update_success_narrows_list_merges_resolved ⟨["AAAA"], []⟩ [rawA] (by simp)
  exact ⟨h.1, h.2.1⟩

/-- A layer that qualifies as a ceiling has a real coverage code. -/
theorem is_ceiling_cover_ne_none {l : CloudLayer} (h : l.is_ceiling = true) : l.cover ≠ none := by
  intro hc
  rw [CloudLayer.is_ceiling, CloudLayer.is_overcast, CloudLayer.is_broken,
    CloudLayer.is_obscured, hc] at h
  exact absurd h (by decide)

/-- The ceiling scan skips non-ceiling layers exactly as filtering does. -/
theorem ceiling_foldl_filter (ls : List CloudLayer) (c : CloudLayer) :
    ls.foldl (fun c layer => ceilingStep c layer) c
      = (ls.filter (fun l => l.is_ceiling)).foldl (fun b x => minStep b x) c := by
  induction ls generalizing c with
  | nil => rfl
  | cons l ls ih =>
    cases hl : l.is_ceiling with
    | true =>
      have hf : (l :: ls).filter (fun l => l.is_ceiling)
          = l :: ls.filter (fun l => l.is_ceiling) := by
        simp [List.filter_cons, hl]
      rw [hf, List.foldl_cons, List.foldl_cons,
        show ceilingStep c l = minStep c l from by simp [ceilingStep, minStep, hl]]
      exact ih (minStep c l)
    | false =>
      have hf : (l :: ls).filter (fun l => l.is_ceiling)
          = ls.filter (fun l => l.is_ceiling) := by
        simp [List.filter_cons, hl]
      rw [hf, List.foldl_cons, show ceilingStep c l = c from by simp [ceilingStep, hl]]
      exact ih c

/-- The running minimum of the scan is the start or one of the layers. -/
theorem foldl_minStep_mem (a : CloudLayer) (xs : List CloudLayer) :
    xs.foldl (fun b x => minStep b x) a = a ∨ xs.foldl (fun b x => minStep b x) a ∈ xs := by
  induction xs generalizing a with
  | nil => exact Or.inl rfl
  | cons x xs ih =>
    simp only [List.foldl_cons]
    rcases ih (minStep a x) with h | h
    · rw [h, minStep]
      by_cases hx : x.altVal < a.altVal
      · rw [if_pos hx]; exact Or.inr (List.mem_cons_self x xs)
      · rw [if_neg hx]; exact Or.inl rfl
    · exact Or.inr (List.mem_cons_of_mem x h)

/-- Any real first element beats the 999999 sentinel when below it. -/
theorem foldl_minStep_from_sentinel (c0 : CloudLayer) (cs : List CloudLayer)
    (h0 : c0.altVal < 999999) :
    (c0 :: cs).foldl (fun b x => minStep b x) ⟨none, some 999999⟩
      = cs.foldl (fun b x => minStep b x) c0 := by
  simp only [List.foldl_cons]
  rw [show minStep ⟨none, some 999999⟩ c0 = c0 from by
    rw [minStep, show (⟨none, some 999999⟩ : CloudLayer).altVal = 999999 from rfl, if_pos h0]]

/-- C3 (amended): provided every ceiling-qualifying layer sits below the
999999 ft scan sentinel, `ceiling()` returns the minimum-altitude layer
among the layers with `is_ceiling` (ties won by the first-encountered
layer), none when no ceiling layer exists, and short-circuits to none
whenever the first layer is clear-equivalent. -/
theorem ceiling_min_ceiling_layer (first : CloudLayer) (rest : List CloudLayer)
    (hb : ∀ l ∈ first :: rest, l.is_ceiling = true → l.altVal < 999999) :
    Sky.ceiling (first :: rest) = specCeiling (first :: rest) := by
  rw [Sky.ceiling, specCeiling]
  by_cases hc : inClear first.cover
  · rw [if_pos hc, if_pos hc]
  · rw [if_neg hc, if_neg hc]
    rw [ceiling_foldl_filter]
    rcases hcseq : (first :: rest).filter (fun l => l.is_ceiling) with _ | ⟨c0, cs'⟩
    · rw [hcseq]
      simp [minByAltFirst]
    · have hcmem : ∀ l ∈ c0 :: cs', l.is_ceiling = true ∧ l.altVal < 999999 := by
        intro l hl
        have hlf := hcseq ▸ hl
        have hm := List.mem_filter.mp hlf
        exact ⟨hm.2, hb l hm.1 hm.2⟩
      rw [hcseq, foldl_minStep_from_sentinel c0 cs' (hcmem c0 (List.mem_cons_self c0 cs')).2]
      have hne : (cs'.foldl (fun b x => minStep b x) c0).cover ≠ none := by
        rcases foldl_minStep_mem c0 cs' with h | h
        · rw [h]; exact is_ceiling_cover_ne_none (hcmem c0 (List.mem_cons_self c0 cs')).1
        · exact is_ceiling_cover_ne_none (hcmem _ (List.mem_cons_of_mem c0 h)).1
      show (if (cs'.foldl (fun b x => minStep b x) c0).cover = none then none
        else some (cs'.foldl (fun b x => minStep b x) c0)) = minByAltFirst (c0 :: cs')
      rw [if_neg hne]
      simp [minByAltFirst]

/-- Witness for the amended C3 at the spec's own worked example:
layers scattered@2000, broken@3500, overcast@1200 give ceiling
overcast@1200, the lowest ceiling-qualifying layer. -/
theorem ceiling_min_ceiling_layer_witness :
    Sky.ceiling [CloudLayer.init "SCT" 2000, CloudLayer.init "BKN" 3500,
        CloudLayer.init "OVC" 1200]
      = specCeiling [CloudLayer.init "SCT" 2000, CloudLayer.init "BKN" 3500,
        CloudLayer.init "OVC" 1200] ∧
    specCeiling [CloudLayer.init "SCT" 2000, CloudLayer.init "BKN" 3500,
        CloudLayer.init "OVC" 1200] = some (CloudLayer.init "OVC" 1200) :=
  ⟨ceiling_min_ceiling_layer _ _ (by decide), by decide⟩

/-- The running minimum keeps a concrete altitude. -/
theorem minStep_alt_isSome {a x : CloudLayer} (ha : a.alt.isSome = true)
    (hx : x.alt.isSome = true) : (minStep a x).alt.isSome = true := by
  rw [minStep]
  split
  · exact hx
  · exact ha

/-- When every scanned layer carries an altitude, the `lowest` loop never
raises and computes the plain running minimum. -/
theorem foldlM_lowestStep_ok (xs : List CloudLayer) (acc : CloudLayer)
    (hacc : acc.alt.isSome = true) (hxs : ∀ l ∈ xs, l.alt.isSome = true) :
    xs.foldlM (fun lw layer => lowestStep lw layer) acc
      = Except.ok (xs.foldl (fun b x => minStep b x) acc) := by
  induction xs generalizing acc with
  | nil => rfl
  | cons x xs ih =>
    obtain ⟨a, ha⟩ := Option.isSome_iff_exists.mp (hxs x (List.mem_cons_self x xs))
    obtain ⟨b, hb⟩ := Option.isSome_iff_exists.mp hacc
    have hstep : lowestStep acc x = Except.ok (minStep acc x) := by
      simp [lowestStep, minStep, CloudLayer.altVal, ha, hb]
    rw [List.foldlM_cons, hstep]
    show xs.foldlM (fun lw layer => lowestStep lw layer) (minStep acc x) = _
    rw [List.foldl_cons]
    exact ih (minStep acc x)
      (minStep_alt_isSome hacc (hxs x (List.mem_cons_self x xs)))
      (fun l hl => hxs l (List.mem_cons_of_mem x hl))

/-- C8 (amended): on a sky whose layers are built from feed entries,
`lowest()` returns none as soon as the first layer is clear-equivalent;
and when no layer at all is clear-equivalent it returns the
minimum-altitude layer among the (all non-clear) layers, the
first-encountered layer winning ties. (A clear-equivalent layer in any
non-first position instead raises `TypeError`, see the counterexample.) -/
theorem lowest_min_nonclear (c : String) (a : Int) (rest : List (String × Int))
    (hrest : ∀ p ∈ rest, p.1 ∉ CLEAR) :
    (c ∈ CLEAR → Sky.lowest (((c, a) :: rest).map (fun p => CloudLayer.init p.1 p.2))
      = Except.ok none) ∧
    (c ∉ CLEAR → Sky.lowest (((c, a) :: rest).map (fun p => CloudLayer.init p.1 p.2))
      = Except.ok (specLowest (((c, a) :: rest).map (fun p => CloudLayer.init p.1 p.2)))) := by
  have hmap : ((c, a) :: rest).map (fun p => CloudLayer.init p.1 p.2)
      = CloudLayer.init c a :: rest.map (fun p => CloudLayer.init p.1 p.2) :=
    List.map_cons _ _ _
  constructor
  · intro hcin
    have hclear : inClear (CloudLayer.init c a).cover = true := by
      simp [CloudLayer.init, inClear, hcin]
    rw [hmap, Sky.lowest, if_pos hclear]
  · intro hcnot
    have hclear : ¬ inClear (CloudLayer.init c a).cover = true := by
      simp [CloudLayer.init, inClear, hcnot]
    have hSome : ∀ l ∈ CloudLayer.init c a :: rest.map (fun p => CloudLayer.init p.1 p.2),
        l.alt.isSome = true := by
      intro l hl
      rcases List.mem_cons.mp hl with h | h
      · rw [h]; simp [CloudLayer.init, hcnot]
      · obtain ⟨p, hp, hpl⟩ := List.mem_map.mp h
        rw [← hpl]; simp [CloudLayer.init, hrest p hp]
    have hfilter : (CloudLayer.init c a :: rest.map (fun p => CloudLayer.init p.1 p.2)).filter
        (fun l => !(inClear l.cover))
        = CloudLayer.init c a :: rest.map (fun p => CloudLayer.init p.1 p.2) := by
      rw [List.filter_eq_self]
      intro l hl
      rcases List.mem_cons.mp hl with h | h
      · rw [h]; simp [CloudLayer.init, inClear, hcnot]
      · obtain ⟨p, hp, hpl⟩ := List.mem_map.mp h
        rw [← hpl]; simp [CloudLayer.init, inClear, hrest p hp]
    rw [hmap, Sky.lowest, if_neg hclear, specLowest, if_neg hclear, hfilter]
    rw [foldlM_lowestStep_ok _ _
      (hSome _ (List.mem_cons_self _ _)) hSome]
    show Except.ok (some _) = _
    rw [List.foldl_cons,
      show minStep (CloudLayer.init c a) (CloudLayer.init c a) = CloudLayer.init c a from by
        rw [minStep, if_neg (lt_irrefl _)]]
    rw [minByAltFirst]

/-- Witness for the amended C8: scattered@2000 over overcast@1200 has
lowest layer overcast@1200. -/
theorem lowest_min_nonclear_witness :
    Sky.lowest [CloudLayer.init "SCT" 2000, CloudLayer.init "OVC" 1200]
      = Except.ok (specLowest [CloudLayer.init "SCT" 2000, CloudLayer.init "OVC" 1200]) ∧
    specLowest [CloudLayer.init "SCT" 2000, CloudLayer.init "OVC" 1200]
      = some (CloudLayer.init "OVC" 1200) := by
  refine ⟨?_, by decide⟩
  exact (lowest_min_nonclear "SCT" 2000 [("OVC", 1200)] (by decide)).2 (by decide)

/-- C7 (amended): `format_vis` classifies VFR at ≥ 5 mi, MVFR at ≥ 3 and
< 5, IFR at ≥ 1 and < 3; below 1 mi only the exact values 1/4, 1/2 and 3/4
get the LIFR tier, rendered as fractions — every other sub-mile value is
returned as the bare number with no tier marker at all. -/
theorem format_vis_tiers (v : ℚ) :
    (5 ≤ v → format_vis (some v)
      = Except.ok (.str (catColorD "VFR" ++ " " ++ padZeroInt 2 (pyInt v) ++ RESET))) ∧
    (3 ≤ v → v < 5 → format_vis (some v)
      = Except.ok (.str (catColorD "MVFR" ++ " " ++ padZeroInt 2 (pyInt v) ++ RESET))) ∧
    (1 ≤ v → v < 3 → format_vis (some v)
      = Except.ok (.str (catColorD "IFR" ++ " " ++ padZeroInt 2 (pyInt v) ++ RESET))) ∧
    (format_vis (some (1/4 : ℚ)) = Except.ok (.str (catColorD "LIFR" ++ "1/4" ++ RESET))) ∧
    (format_vis (some (1/2 : ℚ)) = Except.ok (.str (catColorD "LIFR" ++ "1/2" ++ RESET))) ∧
    (format_vis (some (3/4 : ℚ)) = Except.ok (.str (catColorD "LIFR" ++ "3/4" ++ RESET))) ∧
    (v < 1 → v ≠ 1/4 → v ≠ 1/2 → v ≠ 3/4 → format_vis (some v) = Except.ok (.flt v)) := by
  refine ⟨?_, ?_, ?_, by norm_num [format_vis], by norm_num [format_vis],
    by norm_num [format_vis], ?_⟩
  · intro h5
    rw [format_vis, if_pos h5]
  · intro h3 h5
    rw [format_vis, if_neg (not_le.mpr h5), if_pos h3]
  · intro h1 h3
    rw [format_vis, if_neg (not_le.mpr (lt_of_lt_of_le h3 (by norm_num))),
      if_neg (not_le.mpr h3), if_pos h1]
  · intro h1 hq hh ht
    rw [format_vis, if_neg (not_le.mpr (lt_of_lt_of_le h1 (by norm_num))),
      if_neg (not_le.mpr (lt_of_lt_of_le h1 (by norm_num))), if_neg (not_le.mpr h1),
      if_neg hq, if_neg hh, if_neg ht]

/-- Witness for the amended C7: 4 mi is MVFR, rendered `\x1b[1;34m 04\x1b[0m`. -/
theorem format_vis_tiers_witness :
    format_vis (some (4 : ℚ))
      = Except.ok (.str (catColorD "MVFR" ++ " " ++ padZeroInt 2 (pyInt 4) ++ RESET)) ∧
    format_vis (some (4 : ℚ)) = Except.ok (.str "\x1b[1;34m 04\x1b[0m") := by
  have h := (format_vis_tiers 4).2.1 (by norm_num) (by norm_num)
  have e4 : pyInt (4 : ℚ) = (4 : Int) := by norm_num [pyInt]
  refine ⟨h, ?_⟩
  rw [h, e4]
  rfl

/-- Truncation toward zero agrees with the floor on non-negative reals. -/
theorem pyIntR_nonneg_eq_floor (x : ℝ) (h : 0 ≤ x) : pyIntR x = ⌊x⌋ := by
  rw [pyIntR, if_neg (not_lt.mpr h)]

/-- C4: the relative-humidity field of a parsed record is present iff both
temperature and dewpoint are present in the raw map, and when present it is
the Magnus approximation `100 * exp(17.625*dewpt/(243.04+dewpt)) /
exp(17.625*temp/(243.04+temp))` of the rounded-to-integer temperature and
dewpoint, taken to an integer (the value is positive, so Python's `int()`
truncation is its floor), with exactly the constants 17.625 and 243.04. -/
theorem rh_magnus_iff_present (raw : RawMetar) :
    ((Metar.init raw).rh = none ↔ (raw.temp_c = none ∨ raw.dewpoint_c = none)) ∧
    (∀ t d : ℚ, raw.temp_c = some t → raw.dewpoint_c = some d →
      (Metar.init raw).rh = some ⌊(100 : ℝ) *
        (Real.exp ((17.625 * ((pyRound d : Int) : ℝ)) / (243.04 + ((pyRound d : Int) : ℝ))) /
         Real.exp ((17.625 * ((pyRound t : Int) : ℝ)) / (243.04 + ((pyRound t : Int) : ℝ))))⌋) := by
  constructor
  · rcases ht : raw.temp_c with _ | t <;> rcases hd : raw.dewpoint_c with _ | d <;>
      simp [Metar.init, ht, hd]
  · intro t d ht hd
    have hpos : (0 : ℝ) ≤ 100 *
        (Real.exp ((17.625 * ((pyRound d : Int) : ℝ)) / (243.04 + ((pyRound d : Int) : ℝ))) /
         Real.exp ((17.625 * ((pyRound t : Int) : ℝ)) / (243.04 + ((pyRound t : Int) : ℝ)))) := by
      positivity
    simp only [Metar.init, ht, hd]
    show some (magnusRh (pyRound t) (pyRound d)) = _
    rw [magnusRh, pyIntR_nonneg_eq_floor _ hpos]

/-- Witness for C4 at temperature 20 °C and dewpoint 10 °C. -/
theorem rh_magnus_witness :
    (Metar.init rawTD).rh = some ⌊(100 : ℝ) *
      (Real.exp ((17.625 * ((10 : Int) : ℝ)) / (243.04 + ((10 : Int) : ℝ))) /
       Real.exp ((17.625 * ((20 : Int) : ℝ)) / (243.04 + ((20 : Int) : ℝ))))⌋ := by
  have h := (rh_magnus_iff_present rawTD).2 20 10 rfl rfl
  have e1 : pyRound (20 : ℚ) = (20 : Int) := by norm_num [pyRound]
  have e2 : pyRound (10 : ℚ) = (10 : Int) := by norm_num [pyRound]
  rw [e1, e2] at h
  exact h

end MetarPy
